import Mathlib

/-!
Shallow embedding of the wellness-clinic-agent conversation engine
(`apps/api/src/graph`): the conversation state, the graph nodes
(intent classification, policy question answering, scheduling offer
finalization, confirmation, notification, escalation), the routing
functions, and the HTTP resume handler.  TypeScript `undefined`/`''`
falsiness is modelled explicitly; machine floats (LLM confidences) are
modelled as rationals; collaborator calls (LLM, retrieval, calendar,
reschedule tool) are passed in as explicit arguments so node functions
stay pure and executable.
-/

namespace Wellness

/-- UI phase enum from `packages/dto`: `UiPhase`. -/
inductive UiPhase where
  | Chatting
  | SelectingTime
  | ConfirmingTime
  | Escalated
  | PolicyQA
deriving DecidableEq, Repr

/-- Interrupt kind enum from `packages/dto`: `InterruptKind`. -/
inductive InterruptKind where
  | StartSuggest
  | SelectTime
  | ConfirmTime
  | NoneKind
deriving DecidableEq, Repr

/-- `TimeSlot` from `packages/dto`. The optional `provider` is modelled as a
plain string (absent = `""`; it is only interpolated into message text). -/
structure TimeSlot where
  id : String
  startISO : String
  endISO : String
  provider : String := ""
deriving DecidableEq, Repr

/-- `InterruptPayload` from `packages/dto`. -/
structure InterruptPayload where
  kind : InterruptKind
  slots : List TimeSlot := []
  selectedSlotId : Option String := none
  requiresUserAction : Bool := true
deriving DecidableEq, Repr

/-- `RetrievedChunk` from the retrieval service: the fields the policy node
reads. `score` is a JS number; modelled as a rational. -/
structure RetrievedChunk where
  content : String
  score : Rat := 0
  pageNumber : Nat := 0
deriving DecidableEq, Repr

/-- Structured content of a tool-result message, as `offerOptionsFinalNode`
parses it: a bare array, a JSON string (which parses to an array or to an
object with an optional `slots` field, or throws), or an object with an
optional `slots` field. -/
inductive ToolContent where
  | arr (slots : List TimeSlot)
  | strArr (slots : List TimeSlot)
  | strObj (slots : Option (List TimeSlot))
  | strBad
  | obj (slots : Option (List TimeSlot))
deriving DecidableEq, Repr

/-- A LangChain message: role (`"ai"`, `"human"` or `"tool"`), text content,
the `msg_...` id the nodes generate, and — for tool messages — the structured
content the finalize node parses. -/
structure Message where
  role : String
  content : String
  id : String := ""
  toolContent : Option ToolContent := none
deriving DecidableEq, Repr

/-- The graph state channels of `graph/schema.ts` (`StateAnnotation`).
TypeScript optional strings collapse `undefined` and `""` in every read the
nodes perform (all reads are truthiness tests), so plain-`String` channels
use `""` for absent; `selectedSlotId` and `eventId` are cleared with an
explicit `undefined` by the nodes, so they are `Option String`. -/
structure GraphState where
  messages : List Message := []
  threadId : String := ""
  uiPhase : UiPhase := UiPhase.Chatting
  interrupt : Option InterruptPayload := none
  userQuery : String := ""
  intent : String := "unknown"
  userEscalated : Bool := false
  userKey : String := ""
  userConfirmed : Option Bool := none
  startSuggestion : Option String := none
  preferredDate : String := ""
  preferredProvider : String := ""
  availableSlots : List TimeSlot := []
  selectedSlotId : Option String := some ""
  eventId : Option String := none
  retrievedDocs : List RetrievedChunk := []
  validatedAswer : String := ""
  availableTimesDoNotWork : Bool := false
  twoWeekCapExceeded : Bool := false
  escalationNeeded : Bool := false
deriving DecidableEq, Repr

/-- JS truthiness of an optional string (`undefined` and `""` are falsy). -/
def optTruthy : Option String → Bool
  | none => false
  | some s => s ≠ ""

/-- The whitespace characters JS `String.prototype.trim` strips (the ones
that can occur in chat text). -/
def jsWhitespace (c : Char) : Bool :=
  c == ' ' || c == '\t' || c == '\n' || c == '\r' || c == '\x0b' || c == '\x0c'

/-- JS `s.trim()`, over the character list (structural, so it evaluates). -/
def jsTrim (s : String) : String :=
  String.mk (((s.data.dropWhile jsWhitespace).reverse.dropWhile jsWhitespace).reverse)

/-- The `!s || s.trim() === ''` test of the source: true exactly when every
character is whitespace (equivalently, `trim` yields the empty string). -/
def isBlank (s : String) : Bool :=
  s.data.all jsWhitespace

/-- A partial state update as returned by a node (`Command.update` /
`Partial<State>`): `none` = field not written. For the two `Option String`
channels, `some none` writes the explicit `undefined` the nodes use to
clear them. -/
structure StateUpdate where
  messages : Option (List Message) := none
  uiPhase : Option UiPhase := none
  userQuery : Option String := none
  intent : Option String := none
  userEscalated : Option Bool := none
  escalationNeeded : Option Bool := none
  availableTimesDoNotWork : Option Bool := none
  selectedSlotId : Option (Option String) := none
  eventId : Option (Option String) := none
  availableSlots : Option (List TimeSlot) := none
  preferredDate : Option String := none
  preferredProvider : Option String := none
  interrupt : Option (Option InterruptPayload) := none
  retrievedDocs : Option (List RetrievedChunk) := none
  validatedAswer : Option String := none
deriving DecidableEq, Repr

/-- What a node returns: an update, an optional `Command.goto`, and the
payload of a raised LangGraph `interrupt(...)` when the node calls it. -/
structure NodeResult where
  update : StateUpdate := {}
  goto : Option String := none
  raisedInterrupt : Option InterruptPayload := none
deriving DecidableEq, Repr

/-- One step of LangGraph's `messagesStateReducer`: a message whose id
already exists replaces it in place, otherwise it is appended. -/
def upsertMessage (acc : List Message) (m : Message) : List Message :=
  if acc.any (fun x => x.id == m.id) then
    acc.map (fun x => if x.id == m.id then m else x)
  else
    acc ++ [m]

/-- LangGraph's `messagesStateReducer` over a whole update list. -/
def mergeMessages (old new : List Message) : List Message :=
  new.foldl upsertMessage old

/-- Apply a node's partial update to the state with the per-channel
reducers of `StateAnnotation`: `messages` uses `messagesStateReducer`,
everything else is replace-wins-last. -/
def applyUpdate (s : GraphState) (u : StateUpdate) : GraphState :=
  { s with
    messages := match u.messages with
      | none => s.messages
      | some ms => mergeMessages s.messages ms
    uiPhase := u.uiPhase.getD s.uiPhase
    userQuery := u.userQuery.getD s.userQuery
    intent := u.intent.getD s.intent
    userEscalated := u.userEscalated.getD s.userEscalated
    escalationNeeded := u.escalationNeeded.getD s.escalationNeeded
    availableTimesDoNotWork := u.availableTimesDoNotWork.getD s.availableTimesDoNotWork
    selectedSlotId := u.selectedSlotId.getD s.selectedSlotId
    eventId := u.eventId.getD s.eventId
    availableSlots := u.availableSlots.getD s.availableSlots
    preferredDate := u.preferredDate.getD s.preferredDate
    preferredProvider := u.preferredProvider.getD s.preferredProvider
    interrupt := u.interrupt.getD s.interrupt
    retrievedDocs := u.retrievedDocs.getD s.retrievedDocs
    validatedAswer := u.validatedAswer.getD s.validatedAswer }

namespace NodeName

/-- Node name constants from `packages/dto` (`NodeName`). -/
def INFER_INTENT : String := "infer_intent"

def POLICY_QUESTION : String := "policy_question"

def OFFER_OPTIONS : String := "offer_options"

def OFFER_OPTIONS_AGENT : String := "offer_options_agent"

def OFFER_OPTIONS_FINAL : String := "offer_options_final"

def CONFIRM_TIME : String := "confirm_time"

def NOTIFY_USER : String := "notify_user"

def ESCALATE_HUMAN : String := "escalate_human"

end NodeName

/-- `GREETING_MESSAGE` from `graph/prompts/greeting.ts`. -/
def GREETING_MESSAGE : String :=
  "Hello! I\'m here to help you with wellness clinic appointments and policy questions. Please tell me what you\'d like help with."

/-- The structured result the intent classifier chain parses
(`IntentInferenceResult`): the raw label is an arbitrary string. The
`confidence` number is advisory only — no branch of `inferIntentNode`'s
update depends on it — so it is not carried here. -/
structure ParsedIntent where
  intent : String
  reason : String := ""
deriving DecidableEq, Repr

/-- `routeAfterInferIntent` from `graph/routing.ts` (lines 8-32): empty
query ends the run; an escalated user is forced to the policy branch;
a scheduling intent goes to the offer-options agent; everything else
(policy or unknown) goes to the policy branch. -/
def routeAfterInferIntent (s : GraphState) : String :=
  if isBlank s.userQuery then "__end__"
  else if s.userEscalated then NodeName.POLICY_QUESTION
  else if s.intent == NodeName.OFFER_OPTIONS then "offer_options_agent"
  else NodeName.POLICY_QUESTION

/-- `inferIntentNode` from `graph/nodes/inferIntent.ts`. `parsed = none`
models the catch branch (classifier chain threw / parse failed); `now` is
`Date.now()` used only for message ids. -/
def inferIntentNode (now : Nat) (parsed : Option ParsedIntent) (s : GraphState) :
    StateUpdate :=
  if isBlank s.userQuery then
    if s.messages.length == 0 then
      { messages := some [{ role := "ai", content := GREETING_MESSAGE, id := s!"msg_{now}" }],
        uiPhase := some UiPhase.Chatting }
    else
      { uiPhase := some UiPhase.Chatting }
  else
    match parsed with
    | none =>
      { messages := some (s.messages ++
          [{ role := "ai",
             content := "I understand you\'re asking about our policies. Let me research that for you.",
             id := s!"msg_{now}" }]),
        intent := some NodeName.POLICY_QUESTION,
        uiPhase := some UiPhase.Chatting }
    | some p =>
      let classified : String :=
        if p.intent == NodeName.OFFER_OPTIONS || p.intent == NodeName.POLICY_QUESTION then
          p.intent
        else "unknown"
      let intentMessage : Message :=
        if classified == NodeName.OFFER_OPTIONS then
          { role := "ai",
            content := "I understand you\'d like to check available appointment times. Let me look up the available slots for you.",
            id := s!"msg_{now}" }
        else
          { role := "ai",
            content := "I understand you\'re asking about our policies. Let me research that for you.",
            id := s!"msg_{now}" }
      { messages := some (s.messages ++ [intentMessage]),
        intent := some (if classified == NodeName.OFFER_OPTIONS then NodeName.OFFER_OPTIONS
          else if classified == NodeName.POLICY_QUESTION then NodeName.POLICY_QUESTION
          else NodeName.POLICY_QUESTION),
        uiPhase := some (if classified == NodeName.OFFER_OPTIONS then UiPhase.SelectingTime
          else UiPhase.Chatting) }

/-- `PolicyQuestionPrompt.noInformationMessage` from
`prompts/policyQuestion.ts`, verbatim. -/
def noInformationMessage : String :=
  "I don\'t have information about that in our policy documents, please call our clinic directly at (555) 123-4567 to speak with a representative who can assist you."

/-- The `ValidationResult` the LLM-as-judge call is parsed into
(`prompts/policyValidation.ts`); `confidence` is clamped to [0,1] by the
parser and modelled as a rational. -/
structure ValidationResult where
  isValid : Bool
  reasoning : String := ""
  confidence : Rat := 0
deriving DecidableEq, Repr

/-- The 0.5 confidence threshold of `shouldRejectAnswer`, written in
reduced form so comparisons evaluate. -/
def halfThreshold : Rat :=
  { num := 1, den := 2, den_nz := by decide, reduced := by decide }

/-- `PolicyValidationPrompt.shouldRejectAnswer`: reject when invalid or the
judge's confidence is below 0.5. -/
def shouldRejectAnswer (v : ValidationResult) : Bool :=
  !v.isValid || v.confidence < halfThreshold

/-- The "thinking" progress message `policyQuestionNode` prepends. -/
def thinkingMessage (now : Nat) : Message :=
  { role := "ai", content := "Let me research that policy question for you...",
    id := s!"msg_{now}_thinking" }

/-- `policyQuestionNode` from `graph/nodes` (the policy Q&A node compiled
into the graph; source text in `escalateHuman.ts`'s file, lines 89-327).
Collaborator outcomes are arguments: `chunks` is what
`retrievalService.retrieve(userQuery, 5)` returned, `draft` the first
completion's text, `validation` the parsed judge result, `conservative` the
rewrite completion's text. The second component counts the completion
(LLM) calls the executed path performs. Message `additional_kwargs`
metadata (timestamps, citations, validation notes) is not modelled. -/
def policyQuestionNode (now : Nat) (chunks : List RetrievedChunk) (draft : String)
    (validation : ValidationResult) (conservative : String) (s : GraphState) :
    NodeResult × Nat :=
  if s.userQuery ≠ "" then
    let thinking := thinkingMessage now
    if chunks.length == 0 then
      -- zero chunks: fixed decline message, no completion call, userQuery kept
      let noData : Message :=
        { role := "ai", content := noInformationMessage, id := s!"msg_{now}" }
      ({ update := { messages := some (s.messages ++ [thinking, noData]),
                     uiPhase := some UiPhase.Chatting } }, 0)
    else
      let cleanAnswer := jsTrim draft
      if shouldRejectAnswer validation then
        -- draft + judge + conservative rewrite = 3 completion calls
        let m : Message := { role := "ai", content := conservative, id := s!"msg_{now}" }
        ({ update := { messages := some (s.messages ++ [thinking, m]),
                       uiPhase := some UiPhase.Chatting,
                       retrievedDocs := some chunks } }, 3)
      else
        -- draft + judge = 2 completion calls
        let m : Message := { role := "ai", content := cleanAnswer, id := s!"msg_{now}" }
        ({ update := { messages := some (s.messages ++ [thinking, m]),
                       uiPhase := some UiPhase.Chatting,
                       retrievedDocs := some [],
                       validatedAswer := some "" } }, 2)
  else
    ({ update := { uiPhase := some UiPhase.Chatting },
       goto := some NodeName.INFER_INTENT }, 0)

/-- The slot-extraction branch of `offerOptionsFinalNode` (array content,
JSON string content, or object content; `none` = `JSON.parse` threw). -/
def extractSlots : ToolContent → Option (List TimeSlot)
  | ToolContent.arr slots => some slots
  | ToolContent.strArr slots => some slots
  | ToolContent.strObj slots => some (slots.getD [])
  | ToolContent.strBad => none
  | ToolContent.obj slots => some (slots.getD [])

/-- The escalation-style update `offerOptionsFinalNode` returns on its
error/no-slot paths. -/
def offerFinalEscalation (s : GraphState) (m : Message) : NodeResult :=
  { update := { messages := some (s.messages ++ [m]),
                availableSlots := some [],
                escalationNeeded := some true,
                availableTimesDoNotWork := some true } }

/-- `offerOptionsFinalNode` from `graph/nodes/offerOptions.ts` (lines
62-215): resume dispatch on `selectedSlotId`, then defensive parsing of the
last tool message, the 9-slot cap, and the select-time interrupt. -/
def offerOptionsFinalNode (now : Nat) (s : GraphState) : NodeResult :=
  if optTruthy s.selectedSlotId then
    if s.selectedSlotId == some "none" then
      { goto := some NodeName.ESCALATE_HUMAN }
    else
      { goto := some NodeName.CONFIRM_TIME }
  else
    let toolMessages := s.messages.filter (fun m => m.role == "tool")
    match toolMessages.getLast? with
    | none =>
      offerFinalEscalation s
        { role := "ai",
          content := "I encountered an error while checking availability. Would you like me to escalate this to our clinic staff?",
          id := s!"msg_{now}" }
    | some lastToolMessage =>
      match lastToolMessage.toolContent.bind extractSlots with
      | none =>
        offerFinalEscalation s
          { role := "ai",
            content := "Our scheduling service is down right now, but you can still ask me questions about our policies.",
            id := s!"msg_{now}" }
      | some slots =>
        if slots.length == 0 then
          offerFinalEscalation s
            { role := "ai",
              content := "I\'m sorry, but I don\'t see any available appointment times right now. Would you like me to escalate this to our clinic staff?",
              id := s!"msg_{now}" }
        else
          let slotsToUse := slots.take 9
          let fetching : Message :=
            { role := "ai",
              content := "Let me check available appointment times for you...",
              id := s!"msg_{now}" }
          let payload : InterruptPayload :=
            { kind := InterruptKind.SelectTime, slots := slotsToUse,
              requiresUserAction := true }
          { update := { messages := some (s.messages ++ [fetching]),
                        uiPhase := some UiPhase.SelectingTime,
                        availableSlots := some slotsToUse,
                        escalationNeeded := some false,
                        availableTimesDoNotWork := some false,
                        interrupt := some (some payload) } }

/-- The reschedule tool's parsed result (`tools/reschedule.ts`). -/
structure RescheduleResult where
  success : Bool
  eventId : String := ""
  message : String := ""
deriving DecidableEq, Repr

/-- `confirmTimeNode` from `graph/nodes/confirmTime.ts`. `fmt` is the
`Date.toLocaleString` formatting of a slot's start instant (environment
dependent, so abstracted); `reschedule` is the reschedule tool's outcome
(`none` = the tool threw). `interrupt(...)` calls are surfaced as
`raisedInterrupt`. -/
def confirmTimeNode (now : Nat) (fmt : String → String)
    (reschedule : Option RescheduleResult) (s : GraphState) : NodeResult :=
  if !(optTruthy s.selectedSlotId) then
    if s.availableSlots.length == 0 then
      { update := { uiPhase := some UiPhase.SelectingTime,
                    escalationNeeded := some true } }
    else
      let payload : InterruptPayload :=
        { kind := InterruptKind.SelectTime, slots := s.availableSlots,
          requiresUserAction := true }
      { update := { uiPhase := some UiPhase.SelectingTime },
        raisedInterrupt := some payload }
  else if s.selectedSlotId == some "none" then
    let escalationMessage : Message :=
      { role := "ai",
        content := "I understand none of these times work for you. I\'ll notify a representative to reach out to you directly. In the meantime, feel free to ask me any policy questions you might have.",
        id := s!"msg_{now}" }
    { update := { messages := some (s.messages ++ [escalationMessage]),
                  userEscalated := some true,
                  escalationNeeded := some true,
                  availableTimesDoNotWork := some true,
                  selectedSlotId := some none,
                  uiPhase := some UiPhase.Escalated } }
  else
    match s.availableSlots.find? (fun slot => some slot.id == s.selectedSlotId) with
    | none =>
      -- stale selectedSlotId: soft recovery, clear the dangling id
      { update := { uiPhase := some UiPhase.SelectingTime,
                    selectedSlotId := some none } }
    | some selectedSlot =>
      if (s.interrupt.map (fun i => i.kind)) == some InterruptKind.ConfirmTime then
        if s.userConfirmed == some false then
          { update := { uiPhase := some UiPhase.SelectingTime,
                        escalationNeeded := some true,
                        selectedSlotId := some none } }
        else
          if optTruthy s.eventId then
            match reschedule with
            | some r =>
              if !r.success then
                let rm := r.message
                let errorMessage : Message :=
                  { role := "ai",
                    content := s!"I\'m sorry, but I couldn\'t reschedule your appointment: {rm}. Let\'s try a different time.",
                    id := s!"msg_{now}" }
                { update := { messages := some (s.messages ++ [errorMessage]),
                              uiPhase := some UiPhase.SelectingTime,
                              escalationNeeded := some false,
                              selectedSlotId := some none } }
              else
                let reschedulingMessage : Message :=
                  { role := "ai", content := "Rescheduling your appointment...",
                    id := s!"msg_{now}" }
                { update := { messages := some (s.messages ++ [reschedulingMessage]),
                              escalationNeeded := some false } }
            | none =>
              let errorMessage : Message :=
                { role := "ai",
                  content := "I encountered an error while rescheduling your appointment. Please try again or contact support.",
                  id := s!"msg_{now}" }
              { update := { messages := some (s.messages ++ [errorMessage]),
                            uiPhase := some UiPhase.SelectingTime,
                            escalationNeeded := some false,
                            selectedSlotId := some none } }
          else
            { update := { escalationNeeded := some false } }
      else if s.escalationNeeded then
        { update := { uiPhase := some UiPhase.SelectingTime,
                      escalationNeeded := some false,
                      selectedSlotId := some none } }
      else
        let timeString := fmt selectedSlot.startISO
        let p := selectedSlot.provider
        let confirmMessage : Message :=
          { role := "ai",
            content := s!"Great! I\'d like to confirm your appointment for {timeString} with {p}. Is this correct?",
            id := s!"msg_{now}" }
        let payload : InterruptPayload :=
          { kind := InterruptKind.ConfirmTime,
            selectedSlotId := s.selectedSlotId, requiresUserAction := true }
        { update := { messages := some (s.messages ++ [confirmMessage]),
                      uiPhase := some UiPhase.ConfirmingTime,
                      escalationNeeded := some false },
          raisedInterrupt := some payload }

/-- The confirmation message `notifyUserNode` appends for a resolved slot. -/
def notifyConfirmationMessage (now : Nat) (fmt : String → String)
    (isReschedule : Bool) (slot : TimeSlot) : Message :=
  let actionWord := if isReschedule then "rescheduled" else "scheduled"
  let timeString := fmt slot.startISO
  let p := slot.provider
  { role := "ai",
    content := s!"Perfect! Your appointment has been {actionWord} to {timeString} with {p}. You\'ll receive a confirmation email shortly. Is there anything else I can help you with regarding policies or appointments?",
    id := s!"msg_{now}" }

/-- `notifyUserNode` from `graph/nodes/notifyUser.ts`. The calendar
`createEvent` call (new bookings only) is a side effect whose failure is
caught and logged; `createOk` records its outcome, which never changes the
returned update. The `!state.availableSlots` guard of the source is vacuous
here because the `availableSlots` channel defaults to an array. -/
def notifyUserNode (now : Nat) (fmt : String → String) (createOk : Bool)
    (s : GraphState) : NodeResult :=
  if !(optTruthy s.selectedSlotId) then
    { update := {} }
  else
    match s.availableSlots.find? (fun slot => some slot.id == s.selectedSlotId) with
    | none => { update := {} }
    | some selectedSlot =>
      let isReschedule := optTruthy s.eventId
      let _ := createOk
      let confirmationMessage := notifyConfirmationMessage now fmt isReschedule selectedSlot
      { update := { messages := some (s.messages ++ [confirmationMessage]),
                    uiPhase := some UiPhase.Chatting,
                    userQuery := some "",
                    selectedSlotId := some none,
                    eventId := some none,
                    availableSlots := some [],
                    preferredDate := some "",
                    preferredProvider := some "" } }

/-- The reason decision chain of `escalateHumanNode`
(`graph/nodes/escalateHuman.ts` lines 13-23), as written: an if/else-if
cascade. -/
def escalationReason (s : GraphState) : String :=
  if s.twoWeekCapExceeded then
    "the requested date is beyond our 2-week scheduling limit"
  else if s.availableTimesDoNotWork then
    "none of the available times work for you"
  else if s.availableSlots.length == 0 then
    "no appointment slots are currently available"
  else
    "we need additional assistance with your request"

/-- First entry of a condition/message table whose condition holds, with a
default — the spec's description of reason selection as a fixed-priority
decision table. -/
def firstMatching : List (Bool × String) → String → String
  | [], d => d
  | (c, m) :: rest, d => if c then m else firstMatching rest d

/-- The spec's fixed-priority decision table for the escalation reason:
beyond-scheduling-window, then times-unacceptable, then no-slots-available,
then the generic default. -/
def escalationReasonTable (s : GraphState) : String :=
  firstMatching
    [(s.twoWeekCapExceeded, "the requested date is beyond our 2-week scheduling limit"),
     (s.availableTimesDoNotWork, "none of the available times work for you"),
     (s.availableSlots.length == 0, "no appointment slots are currently available")]
    "we need additional assistance with your request"

/-- `escalateHumanNode` from `graph/nodes/escalateHuman.ts` (lines 9-81).
The Slack escalation ToolNode invocation is a side effect wrapped in
try/catch; it never changes the returned update. -/
def escalateHumanNode (now : Nat) (s : GraphState) : NodeResult :=
  let reason := escalationReason s
  let escalationMessage : Message :=
    { role := "ai",
      content := s!"I understand that {reason}. A representative will contact you within 15 minutes to assist with your scheduling needs. In the meantime, I can help answer any questions about our wellness clinic policies. What would you like to know?",
      id := s!"msg_{now}" }
  { update := { messages := some (s.messages ++ [escalationMessage]),
                uiPhase := some UiPhase.Escalated,
                availableTimesDoNotWork := some true,
                userEscalated := some true } }

/-- A resume request's `response` field as the handler reads it: a `kind`
string plus the optional fields the branches access. -/
structure ResumeResponse where
  kind : String
  chipKey : Option String := none
  text : Option String := none
  slotId : Option String := none
  confirm : Option Bool := none
deriving DecidableEq, Repr

/-- The error responses the resume handler can produce before storing
state: HTTP 400 (missing threadId) and HTTP 404 (unknown thread). There is
no protocol-mismatch error in the source. -/
inductive ResumeError where
  | threadIdRequired
  | threadNotFound
deriving DecidableEq, Repr

/-- How `POST /api/resume` applies a structured response to the loaded
thread state (the body of the `resumeRouter` handler before it stores and
re-enters the graph): each branch dispatches on the RESPONSE's own `kind`
only — the pending interrupt's kind is never consulted. -/
def applyResume (now : Nat) (resp : Option ResumeResponse) (st : GraphState) :
    GraphState :=
  match resp with
  | none => st
  | some r =>
    if r.kind == "StartSuggest" then
      if optTruthy r.chipKey then
        { st with startSuggestion := r.chipKey, interrupt := none }
      else if optTruthy r.text then
        let userMessage : Message :=
          { role := "human", content := r.text.getD "", id := s!"msg_{now}" }
        { st with messages := st.messages ++ [userMessage], interrupt := none }
      else
        { st with interrupt := none }
    else if r.kind == "SelectTime" then
      { st with selectedSlotId := r.slotId, interrupt := none }
    else if r.kind == "ConfirmTime" then
      { st with userConfirmed := r.confirm, interrupt := none }
    else st

/-- The thread store (`threadStore` in `http/chat.ts`): an in-memory map
from thread id to state. -/
abbrev ThreadStore := List (String × GraphState)

/-- `threadStore.get`. -/
def storeGet (store : ThreadStore) (tid : String) : Option GraphState :=
  (List.find? (fun p => p.1 == tid) store).map Prod.snd

/-- `threadStore.set`: replace the entry for the key, or insert it. -/
def storeSet (store : ThreadStore) (tid : String) (st : GraphState) : ThreadStore :=
  if (List.find? (fun p => p.1 == tid) store).isSome then
    List.map (fun p => if p.1 == tid then (tid, st) else p) store
  else
    store ++ [(tid, st)]

/-- The validation-and-store phase of `POST /api/resume`
(`resumeRouter`): reject a missing threadId (400) or an unknown thread
(404); otherwise apply the response by its own `kind` and store the updated
state. Returns the new store and the state it stored. The graph streaming
that follows is a continuation side effect outside this handler's
validation logic. -/
def resumeHandler (now : Nat) (store : ThreadStore) (threadId : String)
    (resp : Option ResumeResponse) : Except ResumeError (ThreadStore × GraphState) :=
  if threadId == "" then Except.error ResumeError.threadIdRequired
  else
    match storeGet store threadId with
    | none => Except.error ResumeError.threadNotFound
    | some st =>
      let st2 := applyResume now resp st
      Except.ok (storeSet store threadId st2, st2)

/-! ## Concrete fixtures used by witnesses and counterexamples -/

/-- A sample availability slot. -/
def sampleSlot (n : Nat) : TimeSlot :=
  { id := s!"slot{n}", startISO := "2026-10-14T10:00:00-04:00",
    endISO := "2026-10-14T11:00:00-04:00", provider := "Dr. Rivera" }

/-- A thread mid-conversation with a fresh scheduling utterance. -/
def baseState : GraphState :=
  { userQuery := "I need to reschedule my appointment",
    messages := [{ role := "human", content := "I need to reschedule my appointment",
                   id := "m1" }] }

/-! ## Claim theorems -/

/-- C4: for every policy query on which retrieval returns zero chunks, the
policy question-answering node appends the fixed decline-and-redirect
message verbatim (the static `noInformationMessage`, not model output)
after the progress message, ends with the chat phase and no interrupt or
goto, and performs zero completion (LLM) calls on that path. -/
theorem policyQuestion_zero_chunks_fixed_decline (now : Nat)
    (draft conservative : String) (validation : ValidationResult)
    (s : GraphState) (h : s.userQuery ≠ "") :
    policyQuestionNode now [] draft validation conservative s =
      ({ update := { messages := some (s.messages ++
                       [thinkingMessage now,
                        { role := "ai", content := noInformationMessage,
                          id := s!"msg_{now}" }]),
                     uiPhase := some UiPhase.Chatting } }, 0) := by
  unfold policyQuestionNode
  simp [h]

/-- C4 witness: the zero-chunk theorem at a concrete state. -/
theorem policyQuestion_zero_chunks_fixed_decline_witness :
    baseState.userQuery ≠ "" ∧
    policyQuestionNode 7 [] "draft" { isValid := true, confidence := 1 } "c" baseState =
      ({ update := { messages := some (baseState.messages ++
                       [thinkingMessage 7,
                        { role := "ai", content := noInformationMessage,
                          id := "msg_7" }]),
                     uiPhase := some UiPhase.Chatting } }, 0) :=
  ⟨by decide,
   policyQuestion_zero_chunks_fixed_decline 7 "draft" "c"
     { isValid := true, confidence := 1 } baseState (by decide)⟩

/-- C5: whatever slot list the availability tool returned, the finalize
stage of the offer pipeline stores at most 9 entries into `availableSlots`
and carries at most 9 entries in the select-time interrupt payload. -/
theorem offerOptionsFinal_slot_cap (now : Nat) (s : GraphState) :
    (∀ xs, (offerOptionsFinalNode now s).update.availableSlots = some xs →
      xs.length ≤ 9) ∧
    (∀ p, (offerOptionsFinalNode now s).update.interrupt = some (some p) →
      p.slots.length ≤ 9) := by
  constructor <;> intro x hx <;>
    simp only [offerOptionsFinalNode, offerFinalEscalation] at hx <;>
    (repeat' split at hx) <;> (try simp_all) <;> (try subst hx) <;>
    simp [List.length_take]

/-- Twelve slots as an availability tool result. -/
def manySlots : List TimeSlot := (List.range 12).map sampleSlot

/-- A state whose last tool message carries the twelve slots. -/
def manySlotState : GraphState :=
  { baseState with
    messages := baseState.messages ++
      [{ role := "tool", content := "", id := "t1",
         toolContent := some (ToolContent.arr manySlots) }] }

/-- C5 witness: twelve tool slots are capped to nine. -/
theorem offerOptionsFinal_slot_cap_witness :
    (offerOptionsFinalNode 7 manySlotState).update.availableSlots =
      some (manySlots.take 9) ∧ (manySlots.take 9).length ≤ 9 :=
  ⟨by decide,
   (offerOptionsFinal_slot_cap 7 manySlotState).1 (manySlots.take 9) (by decide)⟩

/-- C6: entering the intent node with a blank `userQuery` on a thread that
already has messages returns an update writing only the chat phase — no
message is appended and no other channel is touched — and the router after
the intent node returns the `__end__` sentinel, so the turn terminates
within one node hop. -/
theorem inferIntent_idle_turn_ends (now : Nat) (parsed : Option ParsedIntent)
    (s : GraphState) (hq : isBlank s.userQuery = true) (hm : s.messages ≠ []) :
    inferIntentNode now parsed s = { uiPhase := some UiPhase.Chatting } ∧
    routeAfterInferIntent s = "__end__" := by
  have hlen : (s.messages.length == 0) = false := by
    cases hms : s.messages with
    | nil => exact absurd hms hm
    | cons a l => simp [hms]
  unfold inferIntentNode routeAfterInferIntent
  simp [hq, hlen]

/-- A thread with history whose current query is whitespace-only. -/
def idleState : GraphState := { baseState with userQuery := "  " }

/-- C6 witness: the idle-turn theorem at a concrete state. -/
theorem inferIntent_idle_turn_ends_witness :
    inferIntentNode 7 none idleState = { uiPhase := some UiPhase.Chatting } ∧
    routeAfterInferIntent idleState = "__end__" :=
  inferIntent_idle_turn_ends 7 none idleState (by decide) (by decide)

/-- C7: the escalation node's user-facing reason equals, for every input
state, the fixed-priority decision table evaluated in order
(beyond-scheduling-window, then times-unacceptable, then empty
`availableSlots`, then the generic default) — so only the first matching
condition's message is ever used, even when several flags are set. -/
theorem escalationReason_eq_table (s : GraphState) :
    escalationReason s = escalationReasonTable s := rfl

/-- C8: a non-sentinel `selectedSlotId` that matches no entry of
`availableSlots` makes the confirmation node fail soft: the returned
result is exactly the update that resets the phase to time selection and
clears the dangling id — no goto, no interrupt, nothing else (the node is
a total function, so no crash). -/
theorem confirmTime_stale_selection_soft_reset (now : Nat) (fmt : String → String)
    (reschedule : Option RescheduleResult) (s : GraphState) (slotId : String)
    (hsel : s.selectedSlotId = some slotId) (hne : slotId ≠ "") (hnn : slotId ≠ "none")
    (hmiss : ∀ slot ∈ s.availableSlots, slot.id ≠ slotId) :
    confirmTimeNode now fmt reschedule s =
      { update := { uiPhase := some UiPhase.SelectingTime,
                    selectedSlotId := some none } } := by
  have hfind : s.availableSlots.find? (fun slot => slot.id == slotId) = none := by
    rw [List.find?_eq_none]
    intro slot hs
    simpa using hmiss slot hs
  unfold confirmTimeNode
  simp [optTruthy, hsel, hne, hnn, hfind]

/-- A state whose selected slot id references no offered slot. -/
def staleSelectState : GraphState :=
  { baseState with
    selectedSlotId := some "slot99",
    availableSlots := [sampleSlot 1, sampleSlot 2] }

/-- C8 witness: the stale-selection theorem at a concrete state. -/
theorem confirmTime_stale_selection_soft_reset_witness :
    confirmTimeNode 7 (fun x => x) none staleSelectState =
      { update := { uiPhase := some UiPhase.SelectingTime,
                    selectedSlotId := some none } } :=
  confirmTime_stale_selection_soft_reset 7 (fun x => x) none staleSelectState
    "slot99" (by decide) (by decide) (by decide) (by decide)

/-- C9: when the notification node resolves the selected slot, its update
appends the human-readable confirmation message, resets the phase to
Chatting, and clears all scheduling transients — `userQuery`,
`selectedSlotId`, `eventId`, `availableSlots`, `preferredDate` and
`preferredProvider` — and nothing else. -/
theorem notifyUser_resets_to_idle (now : Nat) (fmt : String → String) (createOk : Bool)
    (s : GraphState) (slot : TimeSlot)
    (htr : optTruthy s.selectedSlotId = true)
    (hfind : s.availableSlots.find? (fun t => some t.id == s.selectedSlotId) = some slot) :
    notifyUserNode now fmt createOk s =
      { update := { messages := some (s.messages ++
                      [notifyConfirmationMessage now fmt (optTruthy s.eventId) slot]),
                    uiPhase := some UiPhase.Chatting,
                    userQuery := some "",
                    selectedSlotId := some none,
                    eventId := some none,
                    availableSlots := some [],
                    preferredDate := some "",
                    preferredProvider := some "" } } := by
  unfold notifyUserNode
  simp [htr, hfind]

/-- A state about to be confirmed: the selected slot is offered. -/
def bookedState : GraphState :=
  { baseState with
    selectedSlotId := some "slot1",
    availableSlots := [sampleSlot 1] }

/-- C9 witness: the reset-to-idle theorem at a concrete state. -/
theorem notifyUser_resets_to_idle_witness :
    notifyUserNode 7 (fun x => x) true bookedState =
      { update := { messages := some (bookedState.messages ++
                      [notifyConfirmationMessage 7 (fun x => x)
                        (optTruthy bookedState.eventId) (sampleSlot 1)]),
                    uiPhase := some UiPhase.Chatting,
                    userQuery := some "",
                    selectedSlotId := some none,
                    eventId := some none,
                    availableSlots := some [],
                    preferredDate := some "",
                    preferredProvider := some "" } } :=
  notifyUser_resets_to_idle 7 (fun x => x) true bookedState (sampleSlot 1)
    (by decide) (by decide)

/-- C10: on the success path with a non-blank query, the stored intent is
never the raw label `unknown`: it is always one of the two node names, and
it is the offer-options name exactly when the classifier's raw label was
the offer-options name — every other label (including `unknown`) maps to
the policy-question name. -/
theorem inferIntent_stored_intent_known (now : Nat) (p : ParsedIntent) (s : GraphState)
    (h : isBlank s.userQuery = false) :
    ((inferIntentNode now (some p) s).intent = some NodeName.POLICY_QUESTION ∨
      (inferIntentNode now (some p) s).intent = some NodeName.OFFER_OPTIONS) ∧
    (inferIntentNode now (some p) s).intent ≠ some "unknown" ∧
    ((inferIntentNode now (some p) s).intent = some NodeName.OFFER_OPTIONS ↔
      p.intent = NodeName.OFFER_OPTIONS) := by
  unfold inferIntentNode
  by_cases hp : p.intent = NodeName.OFFER_OPTIONS
  · simp [h, hp, NodeName.POLICY_QUESTION, NodeName.OFFER_OPTIONS]
  · simp only [NodeName.OFFER_OPTIONS] at hp
    by_cases hq2 : p.intent = NodeName.POLICY_QUESTION <;>
      simp only [NodeName.POLICY_QUESTION] at hq2 <;>
      simp [h, hp, hq2, NodeName.POLICY_QUESTION, NodeName.OFFER_OPTIONS]

/-- C10 witness: a raw `unknown` label at a concrete state is stored as
the policy-question node name. -/
theorem inferIntent_stored_intent_known_witness :
    ((inferIntentNode 7 (some { intent := "unknown" }) baseState).intent =
        some NodeName.POLICY_QUESTION ∨
      (inferIntentNode 7 (some { intent := "unknown" }) baseState).intent =
        some NodeName.OFFER_OPTIONS) ∧
    (inferIntentNode 7 (some { intent := "unknown" }) baseState).intent ≠
      some "unknown" ∧
    ((inferIntentNode 7 (some { intent := "unknown" }) baseState).intent =
        some NodeName.OFFER_OPTIONS ↔
      ParsedIntent.intent { intent := "unknown" } = NodeName.OFFER_OPTIONS) :=
  inferIntent_stored_intent_known 7 { intent := "unknown" } baseState (by decide)

/-- C3: escalation is sticky and excludes scheduling. Once `userEscalated`
is true: the router after intent classification never returns the
offer-options pipeline entry and, whenever there is a query to route,
returns the policy-question node regardless of the stored intent; no node
update and no resume application ever writes `userEscalated := false` (the
two writers set it to true), and applying any such update preserves a true
flag. -/
theorem userEscalated_sticky_never_schedules :
    (∀ s : GraphState, s.userEscalated = true →
      routeAfterInferIntent s ≠ "offer_options_agent") ∧
    (∀ s : GraphState, s.userEscalated = true → isBlank s.userQuery = false →
      routeAfterInferIntent s = NodeName.POLICY_QUESTION) ∧
    (∀ now parsed s, (inferIntentNode now parsed s).userEscalated ≠ some false) ∧
    (∀ now chunks draft v c s,
      (policyQuestionNode now chunks draft v c s).1.update.userEscalated ≠ some false) ∧
    (∀ now s, (offerOptionsFinalNode now s).update.userEscalated ≠ some false) ∧
    (∀ now fmt r s, (confirmTimeNode now fmt r s).update.userEscalated ≠ some false) ∧
    (∀ now fmt ok s, (notifyUserNode now fmt ok s).update.userEscalated ≠ some false) ∧
    (∀ now s, (escalateHumanNode now s).update.userEscalated = some true) ∧
    (∀ now resp st, st.userEscalated = true →
      (applyResume now resp st).userEscalated = true) ∧
    (∀ s u, s.userEscalated = true → u.userEscalated ≠ some false →
      (applyUpdate s u).userEscalated = true) := by
  refine ⟨?_, ?_, ?_, ?_, ?_, ?_, ?_, ?_, ?_, ?_⟩
  · intro s h
    unfold routeAfterInferIntent
    by_cases hb : isBlank s.userQuery <;> simp [hb, h, NodeName.POLICY_QUESTION]
  · intro s h hb
    unfold routeAfterInferIntent
    simp [hb, h]
  · intro now parsed s
    unfold inferIntentNode
    (repeat' split) <;> simp
  · intro now chunks draft v c s
    simp only [policyQuestionNode]
    (repeat' split) <;> simp
  · intro now s
    simp only [offerOptionsFinalNode, offerFinalEscalation]
    (repeat' split) <;> simp
  · intro now fmt r s
    simp only [confirmTimeNode]
    (repeat' split) <;> simp
  · intro now fmt ok s
    simp only [notifyUserNode]
    (repeat' split) <;> simp
  · intro now s
    simp [escalateHumanNode]
  · intro now resp st h
    unfold applyResume
    (repeat' split) <;> simp [h]
  · intro s u h hu
    unfold applyUpdate
    cases hue : u.userEscalated with
    | none => simp [hue, h]
    | some b =>
      cases b with
      | false => exact absurd hue hu
      | true => simp [hue]

/-- An escalated thread whose classifier nonetheless says scheduling. -/
def escalatedState : GraphState :=
  { baseState with
    userEscalated := true,
    intent := NodeName.OFFER_OPTIONS }

/-- C3 witness: an escalated state with a scheduling intent still routes
to the policy-question node, never to the offer pipeline. -/
theorem userEscalated_sticky_never_schedules_witness :
    routeAfterInferIntent escalatedState ≠ "offer_options_agent" ∧
    routeAfterInferIntent escalatedState = NodeName.POLICY_QUESTION :=
  ⟨userEscalated_sticky_never_schedules.1 escalatedState (by decide),
   userEscalated_sticky_never_schedules.2.1 escalatedState (by decide) (by decide)⟩

/-- A thread suspended on a select-time interrupt. -/
def pendingSelectState : GraphState :=
  { baseState with
    uiPhase := UiPhase.SelectingTime,
    availableSlots := [sampleSlot 1, sampleSlot 2],
    interrupt := some { kind := InterruptKind.SelectTime,
                        slots := [sampleSlot 1, sampleSlot 2],
                        requiresUserAction := true } }

/-- A thread store holding that suspended thread. -/
def pendingSelectStore : ThreadStore := [("thread_1", pendingSelectState)]

/-- A confirm-time resume payload, mismatching the pending select-time
interrupt. -/
def mismatchedConfirm : ResumeResponse := { kind := "ConfirmTime", confirm := some true }

/-- What the handler actually stores for that mismatched payload. -/
def resumedState : GraphState :=
  { pendingSelectState with userConfirmed := some true, interrupt := none }

/-- C1 counterexample: a `{kind: ConfirmTime, confirm: true}` payload
against a thread whose pending interrupt kind is `SelectTime` is NOT
rejected: the handler succeeds (no error of any sort — the handler's error
type has no protocol-mismatch case), applies the confirmation, clears the
pending interrupt, and stores a state different from the original. -/
theorem resume_kind_mismatch_applied_counterexample :
    (resumeHandler 9 pendingSelectStore "thread_1" (some mismatchedConfirm)).toOption =
      some ([("thread_1", resumedState)], resumedState) ∧
    resumedState ≠ pendingSelectState ∧
    resumedState.userConfirmed = some true ∧
    resumedState.interrupt = none := by decide

/-- C1 (amended): the resume operation performs no interrupt-kind
validation. A confirm-time response on any known thread — whatever the
pending interrupt's kind, or none — is applied according to the response's
own kind: `userConfirmed` is set from the payload, the stored interrupt is
cleared, and the updated state is written back to the thread store. -/
theorem resume_applies_payload_by_its_own_kind (now : Nat) (store : ThreadStore)
    (tid : String) (r : ResumeResponse) (st : GraphState)
    (htid : tid ≠ "") (hget : storeGet store tid = some st)
    (hkind : r.kind = "ConfirmTime") :
    resumeHandler now store tid (some r) =
      Except.ok
        (storeSet store tid { st with userConfirmed := r.confirm, interrupt := none },
         { st with userConfirmed := r.confirm, interrupt := none }) := by
  unfold resumeHandler applyResume
  simp [htid, hget, hkind]

/-- C1 witness: the amended theorem at the concrete mismatched input. -/
theorem resume_applies_payload_by_its_own_kind_witness :
    resumeHandler 9 pendingSelectStore "thread_1" (some mismatchedConfirm) =
      Except.ok
        (storeSet pendingSelectStore "thread_1"
          { pendingSelectState with userConfirmed := mismatchedConfirm.confirm,
                                    interrupt := none },
         { pendingSelectState with userConfirmed := mismatchedConfirm.confirm,
                                   interrupt := none }) :=
  resume_applies_payload_by_its_own_kind 9 pendingSelectStore "thread_1"
    mismatchedConfirm pendingSelectState (by decide) (by decide) (by decide)

/-- A fresh policy-question turn. -/
def policyTurnState : GraphState :=
  { userQuery := "What is the cancellation policy?",
    intent := NodeName.POLICY_QUESTION,
    messages := [{ role := "human", content := "What is the cancellation policy?",
                   id := "m1" }] }

/-- A grounding chunk the retrieval collaborator returns. -/
def policyChunk : RetrievedChunk :=
  { content := "Cancellations require 24 hours notice.", score := 1, pageNumber := 3 }

/-- A judge verdict that accepts the drafted answer. -/
def passingValidation : ValidationResult := { isValid := true, confidence := 1 }

/-- C2, evaluated at the failing input: the policy question-answering
node's update does not clear `userQuery` — neither on its validated-answer
path nor on its zero-chunk path — so after applying the update the router
after the intent node sends the same utterance to the policy node again
(the reprocessing loop the invariant is meant to prevent), whereas the
notification node does clear `userQuery` as the claim states. -/
theorem policyQuestion_keeps_userQuery_loop_bug :
    (policyQuestionNode 9 [policyChunk] "Cancellations require 24 hours notice."
        passingValidation "" policyTurnState).1.update.userQuery = none ∧
    (policyQuestionNode 9 [] "" passingValidation "" policyTurnState).1.update.userQuery =
      none ∧
    routeAfterInferIntent (applyUpdate policyTurnState
        (policyQuestionNode 9 [policyChunk] "Cancellations require 24 hours notice."
          passingValidation "" policyTurnState).1.update) = NodeName.POLICY_QUESTION ∧
    (notifyUserNode 9 (fun x => x) true bookedState).update.userQuery = some "" := by
  decide

end Wellness
